import Mathlib

/-!
Verification development for the `BookingModal` component
(`src/components/booking/BookingModal.tsx` of SkillXChange_2.0).

The component is a UI widget around asynchronous backend calls.  We embed it
shallowly:

* `UiState` holds the React state hooks (`slots`, `loading`,
  `bookingInProgress`, `bookingSlotId`, `error`).
* The outcomes of the remote collaborators (current-user resolution, the
  `book_time_slot` RPC, the two profile fetches, the email dispatch, the slot
  query) are supplied as explicit inputs (`BookWorld`, `SlotQueryResp`), since
  the component treats them as black boxes.
* Each async handler (`bookSlot`, `loadAvailableSlots`) becomes a pure
  function from the current state and the collaborator outcomes to the final
  state together with a record of the observable effects it performed
  (RPC invocations, callback invocations, log lines).
* The interleaving of several in-flight `bookSlot` invocations, needed to
  reason about the concurrency claims, is a small step machine
  (`MState`, `mstep`) whose suspension points are the `await`s of the source.

Strings model the JavaScript strings (error messages, ids, ISO timestamps);
an absent value (`null`/`undefined`) is `Option.none`; JavaScript truthiness
of an error string is `≠ ""`.
-/

/-- A row of the `time_slots` table as the component consumes it
(`interface TimeSlot`). -/
structure TimeSlot where
  id : String
  start_time : String
  end_time : String
deriving DecidableEq, Repr

/-- A profile row as selected by the component: `select('email, full_name')`. -/
structure Profile where
  email : String
  full_name : String
deriving DecidableEq, Repr

/-- Result of `sendBookingEmails`: `{ success, error? }`. -/
structure EmailResult where
  success : Bool
  error : String
deriving DecidableEq, Repr

/-- The React state of `BookingModal`:
`slots`, `loading`, `bookingInProgress`, `bookingSlotId`, `error`. -/
structure UiState where
  slots : List TimeSlot
  loading : Bool
  bookingInProgress : Bool
  bookingSlotId : Option String
  error : String
deriving DecidableEq, Repr

/-- Initial values of the `useState` hooks. -/
def initialUiState : UiState :=
  { slots := [], loading := true, bookingInProgress := false,
    bookingSlotId := none, error := "" }

/-- Outcomes of the remote collaborators consulted by one `bookSlot` run:
the authenticated user id (`supabase.auth.getUser`), the `book_time_slot`
RPC outcome (`error` message if the call errored, else the truthiness of
`data`), the `.data` of the two profile fetches, and the email result. -/
structure BookWorld where
  user : Option String
  bookingError : Option String
  bookingResult : Bool
  studentProfile : Option Profile
  mentorProfile : Option Profile
  emailResult : EmailResult
deriving DecidableEq, Repr

/-- Observable effects of one `bookSlot` run: how many `book_time_slot` RPCs
were submitted, how many profile-fetch queries were issued, how many email
dispatches were requested, how often `onBookingComplete` was invoked, and the
`console.warn` / `console.error` lines emitted. -/
structure BookEffects where
  rpcCalls : Nat
  profileFetches : Nat
  emailCalls : Nat
  completeCalls : Nat
  warnLogs : Nat
  errorLogs : Nat
deriving DecidableEq, Repr

/-- Effects record with all counters zero. -/
def noEffects : BookEffects :=
  { rpcCalls := 0, profileFetches := 0, emailCalls := 0,
    completeCalls := 0, warnLogs := 0, errorLogs := 0 }

/-- The synchronous prologue of `bookSlot`, run before any `await`:
`setBookingSlotId(slotId); setBookingInProgress(true); setError('')`. -/
def bookPrologue (s : UiState) (slotId : String) : UiState :=
  { s with bookingSlotId := some slotId, bookingInProgress := true,
           error := "" }

/-- The `try` block of `bookSlot` (lines 57–108 of the source): returns the
effects performed together with `some msg` when an error with message `msg`
was thrown, `none` when the block ran to completion.  Thrown messages:
`'Not authenticated'` when no user; the RPC error's own message when the RPC
errors; `'Failed to book the slot'` on a falsy RPC result;
`'Could not fetch user profiles'` when either profile fetch has no data.
A failed email dispatch only adds a `console.warn` and the block still calls
`onBookingComplete()`. -/
def bookTryBody (w : BookWorld) : BookEffects × Option String :=
  match w.user with
  | none => (noEffects, some "Not authenticated")
  | some _uid =>
    match w.bookingError with
    | some msg => ({ noEffects with rpcCalls := 1 }, some msg)
    | none =>
      if !w.bookingResult then
        ({ noEffects with rpcCalls := 1 }, some "Failed to book the slot")
      else if w.studentProfile.isNone || w.mentorProfile.isNone then
        ({ noEffects with rpcCalls := 1, profileFetches := 2 },
         some "Could not fetch user profiles")
      else
        ({ noEffects with rpcCalls := 1, profileFetches := 2,
                          emailCalls := 1, completeCalls := 1,
                          warnLogs := if w.emailResult.success then 0 else 1 },
         none)

/-- Fallback message of the `catch` block: `err.message || '...'`. -/
def bookFallbackMsg : String := "Failed to book the session. Please try again."

/-- One complete run of `bookSlot` (prologue, `try`, `catch`, `finally`):
the `catch` logs the error and shows `err.message || bookFallbackMsg`
(JavaScript `||` takes the fallback when the message is the empty string);
the `finally` clears `bookingInProgress` and `bookingSlotId` on every path. -/
def bookSlot (s : UiState) (w : BookWorld) (slotId : String) :
    UiState × BookEffects :=
  let s1 := bookPrologue s slotId
  let r := bookTryBody w
  let s2 :=
    match r.2 with
    | some msg =>
        { s1 with error := if msg = "" then bookFallbackMsg else msg }
    | none => s1
  let eff :=
    match r.2 with
    | some _ => { r.1 with errorLogs := r.1.errorLogs + 1 }
    | none => r.1
  ({ s2 with bookingInProgress := false, bookingSlotId := none }, eff)

/-- Response of the slot query as `loadAvailableSlots` sees it:
`{ data, error }` where a non-null `error` is its message. -/
structure SlotQueryResp where
  data : Option (List TimeSlot)
  error : Option String
deriving DecidableEq, Repr

/-- One run of `loadAvailableSlots` (lines 32–50 of the source): on a
non-null query error it is thrown, caught, logged (the returned flag) and
`'Failed to load available time slots'` is shown; otherwise
`setSlots(data || [])`.  The `finally` clears `loading` on both paths. -/
def loadAvailableSlots (s : UiState) (resp : SlotQueryResp) :
    UiState × Bool :=
  match resp.error with
  | some _ =>
      ({ s with error := "Failed to load available time slots",
                loading := false }, true)
  | none =>
      ({ s with slots := resp.data.getD [], loading := false }, false)

/-- A row of the backend `time_slots` table, with the columns the query
filters on. -/
structure DbSlot where
  id : String
  mentor_id : String
  is_booked : Bool
  start_time : String
  end_time : String
deriving DecidableEq, Repr

/-- Lexicographic comparison of character lists by code point, used to model
the backend's ordering of `start_time` values: for ISO-8601 UTC timestamps
(`new Date().toISOString()` and the stored `start_time` values) lexicographic
order coincides with chronological order. -/
def strLeCore : List Char → List Char → Bool
  | [], _ => true
  | _ :: _, [] => false
  | a :: as, b :: bs =>
    if a.toNat < b.toNat then true
    else if b.toNat < a.toNat then false
    else strLeCore as bs

/-- Timestamp order on ISO-8601 strings (see `strLeCore`). -/
def strLe (a b : String) : Bool :=
  strLeCore a.data b.data

/-- The predicate the slot query requests:
`.eq('mentor_id', mentorId).eq('is_booked', false)
.gte('start_time', new Date().toISOString())`. -/
def slotMatches (mentorId now : String) (s : DbSlot) : Bool :=
  s.mentor_id = mentorId && s.is_booked = false && strLe now s.start_time

/-- Semantics of the query issued by `loadAvailableSlots`: the rows of the
table satisfying the three filters, ordered by
`.order('start_time', { ascending: true })`. -/
def runSlotQuery (db : List DbSlot) (mentorId now : String) : List DbSlot :=
  (db.filter (slotMatches mentorId now)).mergeSort
    (fun a b => strLe a.start_time b.start_time)

/-- A returned row, viewed through the component's `TimeSlot` interface. -/
def DbSlot.toTimeSlot (s : DbSlot) : TimeSlot :=
  { id := s.id, start_time := s.start_time, end_time := s.end_time }

/-- The three mutually exclusive body states of the render (lines 138–156):
the loading indicator, the `'No available time slots'` empty state, or the
slot list. -/
inductive BodyView where
  | loadingView
  | emptyView
  | listView (slots : List TimeSlot)
deriving DecidableEq, Repr

/-- The render's body branch: `loading ? … : slots.length === 0 ? … : …`. -/
def renderBody (loading : Bool) (slots : List TimeSlot) : BodyView :=
  if loading then .loadingView
  else if slots.length = 0 then .emptyView
  else .listView slots

/-- Whether the error banner renders: `{error && (…)}`. -/
def errorBannerShown (error : String) : Bool :=
  error ≠ ""

/-!
Interleaving semantics.  `bookSlot` is `async`; the event loop may run its
synchronous prologue for a second click while an earlier invocation is
suspended at an `await`.  We model each invocation as a coroutine identified
by its slot id, with a stage per suspension point up to the RPC; the source
has no code between the resolution of `supabase.auth.getUser()` (with a
user present) and the submission of the `book_time_slot` RPC, so resolving
the user puts the slot's RPC in flight.  Behaviour after the RPC resolves
(profiles, emails, callback) is modelled by the pure `bookSlot` above; the
machine collapses it, only applying the `catch`/`finally` state updates,
since the machine exists to track which booking RPCs are simultaneously
outstanding. -/

/-- Suspension stage of one in-flight `bookSlot` invocation. -/
inductive Stage where
  | awaitingUser
  | awaitingRpc
deriving DecidableEq, Repr

/-- One in-flight `bookSlot` invocation. -/
structure Attempt where
  slot : String
  stage : Stage
deriving DecidableEq, Repr

/-- State of the modal together with the in-flight invocations and the set
of outstanding `book_time_slot` RPC calls. -/
structure MState where
  availableSlots : List String
  bookingInProgress : Bool
  bookingSlotId : Option String
  error : String
  attempts : List Attempt
  rpcInFlight : List String
deriving DecidableEq, Repr

/-- Machine state when the modal shows the given slots and nothing is in
flight. -/
def initMState (slots : List String) : MState :=
  { availableSlots := slots, bookingInProgress := false,
    bookingSlotId := none, error := "", attempts := [], rpcInFlight := [] }

/-- Scheduler events: the user clicks a slot's book button, the
`getUser` promise of an attempt resolves with an authenticated user, or the
RPC of an attempt resolves (`ok` = truthy result, no error). -/
inductive MEvent where
  | click (slot : String)
  | userResolved (slot : String)
  | rpcResolved (slot : String) (ok : Bool)
deriving DecidableEq, Repr

/-- One scheduler step; `none` when the event cannot fire.  A `click` is
possible on any rendered slot whose own row is not showing the loading
indicator (`isLoading = bookingInProgress && bookingSlotId === slot.id`,
the only per-row guard the component provides); `bookSlot` itself performs
no check of `bookingInProgress`, so the click always starts a new attempt,
running the prologue.  `userResolved` submits the RPC.  `rpcResolved` ends
the attempt: on a falsy result the `catch` sets the error message, and the
`finally` clears the flags either way. -/
def mstep (m : MState) : MEvent → Option MState
  | .click slot =>
    if slot ∈ m.availableSlots ∧
        ¬(m.bookingInProgress ∧ m.bookingSlotId = some slot) then
      some { m with bookingSlotId := some slot, bookingInProgress := true,
                    error := "",
                    attempts := m.attempts ++ [⟨slot, .awaitingUser⟩] }
    else none
  | .userResolved slot =>
    if (⟨slot, .awaitingUser⟩ : Attempt) ∈ m.attempts then
      some { m with
              attempts := m.attempts.erase ⟨slot, .awaitingUser⟩
                            ++ [⟨slot, .awaitingRpc⟩],
              rpcInFlight := m.rpcInFlight ++ [slot] }
    else none
  | .rpcResolved slot ok =>
    if (⟨slot, .awaitingRpc⟩ : Attempt) ∈ m.attempts ∧ slot ∈ m.rpcInFlight then
      some { m with
              attempts := m.attempts.erase ⟨slot, .awaitingRpc⟩,
              rpcInFlight := m.rpcInFlight.erase slot,
              error := if ok then m.error else "Failed to book the slot",
              bookingInProgress := false,
              bookingSlotId := none }
    else none

/-- States reachable from an initial modal state by scheduler steps. -/
inductive Reached : MState → Prop where
  | init (slots : List String) : Reached (initMState slots)
  | step : ∀ m e m', Reached m → mstep m e = some m' → Reached m'

/-- Run a sequence of scheduler events from an initial state; `none` when
some event cannot fire. -/
def runEvents (slots : List String) (evs : List MEvent) : Option MState :=
  evs.foldl (fun acc e => acc.bind (fun m => mstep m e))
    (some (initMState slots))

/-- The slot-query response on the success path, as produced for the rows the
query returns. -/
def slotLoadResp (db : List DbSlot) (mentorId now : String) : SlotQueryResp :=
  { data := some ((runSlotQuery db mentorId now).map DbSlot.toTimeSlot),
    error := none }

/-- Event trace: the user clicks slot `s1`; its `getUser` resolves (the RPC
for `s1` is submitted); before that RPC resolves the user clicks slot `s2`;
its `getUser` resolves (the RPC for `s2` is submitted). -/
def c1Trace : List MEvent :=
  [.click "s1", .userResolved "s1", .click "s2", .userResolved "s2"]

/-- The machine state reached by `c1Trace`: both `book_time_slot` RPCs are
outstanding at once. -/
def c1FinalState : MState :=
  { availableSlots := ["s1", "s2"], bookingInProgress := true,
    bookingSlotId := some "s2", error := "",
    attempts := [⟨"s1", .awaitingRpc⟩, ⟨"s2", .awaitingRpc⟩],
    rpcInFlight := ["s1", "s2"] }

/-- Collaborator outcomes of a fully successful booking run. -/
def wBookOk : BookWorld :=
  { user := some "u1", bookingError := none, bookingResult := true,
    studentProfile := some ⟨"student@example.com", "Student One"⟩,
    mentorProfile := some ⟨"mentor@example.com", "Mentor One"⟩,
    emailResult := { success := true, error := "" } }

/-- Collaborator outcomes of a successful booking whose email dispatch
reports failure. -/
def wBookEmailFail : BookWorld :=
  { wBookOk with emailResult := { success := false, error := "smtp down" } }

/-- Collaborator outcomes when current-user resolution yields no user. -/
def wBookNoAuth : BookWorld :=
  { wBookOk with user := none }

/-- A table with no eligible slot for mentor `m1` at the witness time: one
slot of another mentor, one already-booked slot, one past slot. -/
def c8Db : List DbSlot :=
  [⟨"a", "m2", false, "2025-02-01T10:00:00Z", "2025-02-01T11:00:00Z"⟩,
   ⟨"b", "m1", true, "2025-02-01T10:00:00Z", "2025-02-01T11:00:00Z"⟩,
   ⟨"c", "m1", false, "2020-01-01T00:00:00Z", "2020-01-01T01:00:00Z"⟩]

/-- The witness load time for `c8Db`. -/
def c8Now : String := "2025-01-01T00:00:00Z"

/-- The machine state after a click on `s1` from the freshly rendered
modal. -/
def c10ClickState : MState :=
  { availableSlots := ["s1"], bookingInProgress := true,
    bookingSlotId := some "s1", error := "",
    attempts := [⟨"s1", .awaitingUser⟩], rpcInFlight := [] }

theorem foldl_mstep_none (evs : List MEvent) :
    evs.foldl (fun acc e => acc.bind (fun m => mstep m e))
      (none : Option MState) = none := by
  induction evs with
  | nil => rfl
  | cons e rest ih => simpa using ih

theorem runEvents_reached (slots : List String) :
    ∀ (evs : List MEvent) (m : MState),
      runEvents slots evs = some m → Reached m := by
  have key : ∀ (evs : List MEvent) (m₀ m : MState), Reached m₀ →
      evs.foldl (fun acc e => acc.bind (fun m => mstep m e)) (some m₀)
        = some m → Reached m := by
    intro evs
    induction evs with
    | nil => intro m₀ m h₀ h; exact (Option.some.inj h) ▸ h₀
    | cons e rest ih =>
      intro m₀ m h₀ h
      simp only [List.foldl_cons, Option.some_bind] at h
      cases he : mstep m₀ e with
      | none =>
        rw [he, foldl_mstep_none] at h
        exact absurd h (by simp)
      | some m₁ =>
        rw [he] at h
        exact ih m₁ m (Reached.step m₀ e m₁ h₀ he) h
  intro evs m h
  exact key evs (initMState slots) m (Reached.init slots) h

theorem strLeCore_trans :
    ∀ as bs cs : List Char, strLeCore as bs = true → strLeCore bs cs = true →
      strLeCore as cs = true := by
  intro as
  induction as with
  | nil => intro bs cs h₁ h₂; rfl
  | cons a as ih =>
    intro bs cs h₁ h₂
    cases bs with
    | nil => simp [strLeCore] at h₁
    | cons b bs =>
      cases cs with
      | nil => simp [strLeCore] at h₂
      | cons c cs =>
        simp only [strLeCore] at h₁ h₂ ⊢
        by_cases hab : a.toNat < b.toNat
        · by_cases hbc : b.toNat < c.toNat
          · have hac : a.toNat < c.toNat := Nat.lt_trans hab hbc
            simp [hac]
          · by_cases hcb : c.toNat < b.toNat
            · simp [hbc, hcb] at h₂
            · have hac : a.toNat < c.toNat := by omega
              simp [hac]
        · by_cases hba : b.toNat < a.toNat
          · simp [hab, hba] at h₁
          · simp only [if_neg hab, if_neg hba] at h₁
            by_cases hbc : b.toNat < c.toNat
            · have hac : a.toNat < c.toNat := by omega
              simp [hac]
            · by_cases hcb : c.toNat < b.toNat
              · simp [hbc, hcb] at h₂
              · simp only [if_neg hbc, if_neg hcb] at h₂
                have hac : ¬a.toNat < c.toNat := by omega
                have hca : ¬c.toNat < a.toNat := by omega
                simpa [hac, hca] using ih bs cs h₁ h₂

theorem strLeCore_total :
    ∀ as bs : List Char, (strLeCore as bs || strLeCore bs as) = true := by
  intro as
  induction as with
  | nil => intro bs; simp [strLeCore]
  | cons a as ih =>
    intro bs
    cases bs with
    | nil => simp [strLeCore]
    | cons b bs =>
      simp only [strLeCore]
      by_cases hab : a.toNat < b.toNat
      · simp [hab]
      · by_cases hba : b.toNat < a.toNat
        · simp [hab, hba]
        · simpa [hab, hba] using ih bs

theorem strLe_trans (a b c : String) (h₁ : strLe a b = true)
    (h₂ : strLe b c = true) : strLe a c = true :=
  strLeCore_trans a.data b.data c.data h₁ h₂

theorem strLe_total (a b : String) : (strLe a b || strLe b a) = true :=
  strLeCore_total a.data b.data

theorem bookTryBody_complete_or_ok (w : BookWorld) :
    (bookTryBody w).1.completeCalls = 0 ∨ (bookTryBody w).2 = none := by
  rcases w with ⟨user, be, br, sp, mp, er⟩
  cases user with
  | none => left; rfl
  | some uid =>
    cases be with
    | some m => left; rfl
    | none =>
      dsimp [bookTryBody]
      split
      · left; rfl
      · split
        · left; rfl
        · right; rfl

/-- C1 (refuted; evidence for the code bug).  The claim says an attempt on
slot B while the booking of slot A is unresolved is rejected and that two
booking RPC invocations are never in flight at once.  `bookSlot` never
checks `bookingInProgress`, so the trace `c1Trace` — click `s1`, its
`getUser` resolves, click `s2`, its `getUser` resolves — is accepted and
reaches a state in which the `book_time_slot` RPCs for `s1` and `s2` are
both outstanding: the second click happened with `bookingInProgress = true`
and was not rejected. -/
theorem C1_second_attempt_not_rejected :
    (∃ m : MState, Reached m ∧ m.rpcInFlight = ["s1", "s2"]) ∧
    (runEvents ["s1", "s2"] [.click "s1", .userResolved "s1"]).map
        MState.bookingInProgress = some true :=
  ⟨⟨c1FinalState,
    runEvents_reached ["s1", "s2"] c1Trace c1FinalState (by decide),
    rfl⟩,
   by decide⟩

/-- C2: if the user is authenticated, the booking RPC returns no error and a
truthy result, both profile fetches return data and email dispatch succeeds,
then `onBookingComplete` is invoked exactly once and the visible error state
remains the empty string (no error banner). -/
theorem C2_success_invokes_completion_once (s : UiState) (w : BookWorld)
    (slotId uid : String)
    (hu : w.user = some uid) (hbe : w.bookingError = none)
    (hbr : w.bookingResult = true)
    (hsp : w.studentProfile.isSome = true)
    (hmp : w.mentorProfile.isSome = true)
    (hes : w.emailResult.success = true) :
    (bookSlot s w slotId).2.completeCalls = 1 ∧
    (bookSlot s w slotId).1.error = "" ∧
    errorBannerShown ((bookSlot s w slotId).1.error) = false := by
  obtain ⟨spv, hspv⟩ := Option.isSome_iff_exists.mp hsp
  obtain ⟨mpv, hmpv⟩ := Option.isSome_iff_exists.mp hmp
  simp [bookSlot, bookTryBody, bookPrologue, errorBannerShown,
        hu, hbe, hbr, hes, hspv, hmpv]

theorem C2_success_witness :
    (bookSlot initialUiState wBookOk "s1").2.completeCalls = 1 ∧
    (bookSlot initialUiState wBookOk "s1").1.error = "" ∧
    errorBannerShown ((bookSlot initialUiState wBookOk "s1").1.error)
      = false :=
  C2_success_invokes_completion_once initialUiState wBookOk "s1" "u1"
    rfl rfl rfl rfl rfl rfl

/-- C3: if the booking RPC succeeds and both profile fetches return data but
the email dispatch reports failure, `onBookingComplete` is still invoked
exactly once, no error is shown, and the failure is only logged (one
`console.warn`, no `console.error`). -/
theorem C3_email_failure_still_completes (s : UiState) (w : BookWorld)
    (slotId uid : String)
    (hu : w.user = some uid) (hbe : w.bookingError = none)
    (hbr : w.bookingResult = true)
    (hsp : w.studentProfile.isSome = true)
    (hmp : w.mentorProfile.isSome = true)
    (hes : w.emailResult.success = false) :
    (bookSlot s w slotId).2.completeCalls = 1 ∧
    (bookSlot s w slotId).1.error = "" ∧
    errorBannerShown ((bookSlot s w slotId).1.error) = false ∧
    (bookSlot s w slotId).2.warnLogs = 1 ∧
    (bookSlot s w slotId).2.errorLogs = 0 := by
  obtain ⟨spv, hspv⟩ := Option.isSome_iff_exists.mp hsp
  obtain ⟨mpv, hmpv⟩ := Option.isSome_iff_exists.mp hmp
  simp [bookSlot, bookTryBody, bookPrologue, errorBannerShown, noEffects,
        hu, hbe, hbr, hes, hspv, hmpv]

theorem C3_email_failure_witness :
    (bookSlot initialUiState wBookEmailFail "s1").2.completeCalls = 1 ∧
    (bookSlot initialUiState wBookEmailFail "s1").1.error = "" ∧
    errorBannerShown ((bookSlot initialUiState wBookEmailFail "s1").1.error)
      = false ∧
    (bookSlot initialUiState wBookEmailFail "s1").2.warnLogs = 1 ∧
    (bookSlot initialUiState wBookEmailFail "s1").2.errorLogs = 0 :=
  C3_email_failure_still_completes initialUiState wBookEmailFail "s1" "u1"
    rfl rfl rfl rfl rfl rfl

/-- C4: if current-user resolution yields no user, the `book_time_slot` RPC
is never submitted and the authentication error message is displayed. -/
theorem C4_unauthenticated_no_rpc (s : UiState) (w : BookWorld)
    (slotId : String) (hu : w.user = none) :
    (bookSlot s w slotId).2.rpcCalls = 0 ∧
    (bookSlot s w slotId).1.error = "Not authenticated" ∧
    (bookSlot s w slotId).2.completeCalls = 0 := by
  simp [bookSlot, bookTryBody, bookPrologue, noEffects, hu]

theorem C4_unauthenticated_witness :
    (bookSlot initialUiState wBookNoAuth "s1").2.rpcCalls = 0 ∧
    (bookSlot initialUiState wBookNoAuth "s1").1.error = "Not authenticated" ∧
    (bookSlot initialUiState wBookNoAuth "s1").2.completeCalls = 0 :=
  C4_unauthenticated_no_rpc initialUiState wBookNoAuth "s1" rfl

/-- C5: whenever the `try` block of `bookSlot` throws (steps 1–3:
authentication, booking RPC — a falsy result is converted to a thrown
error — or profile fetch), the in-progress state is cleared, the thrown
message (or the generic fallback when the message is empty) is displayed,
and `onBookingComplete` is not invoked. -/
theorem C5_thrown_error_reported (s : UiState) (w : BookWorld)
    (slotId msg : String) (h : (bookTryBody w).2 = some msg) :
    (bookSlot s w slotId).1.bookingInProgress = false ∧
    (bookSlot s w slotId).1.bookingSlotId = none ∧
    (bookSlot s w slotId).1.error
      = (if msg = "" then bookFallbackMsg else msg) ∧
    (bookSlot s w slotId).2.completeCalls = 0 := by
  have hc : (bookTryBody w).1.completeCalls = 0 := by
    rcases bookTryBody_complete_or_ok w with hc | hok
    · exact hc
    · rw [hok] at h; exact absurd h (by simp)
  refine ⟨rfl, rfl, ?_, ?_⟩
  · simp [bookSlot, h]
  · simp [bookSlot, h, hc]

theorem C5_thrown_error_witness :
    (bookSlot initialUiState wBookNoAuth "s2").1.bookingInProgress = false ∧
    (bookSlot initialUiState wBookNoAuth "s2").1.bookingSlotId = none ∧
    (bookSlot initialUiState wBookNoAuth "s2").1.error
      = (if "Not authenticated" = "" then bookFallbackMsg
         else "Not authenticated") ∧
    (bookSlot initialUiState wBookNoAuth "s2").2.completeCalls = 0 :=
  C5_thrown_error_reported initialUiState wBookNoAuth "s2"
    "Not authenticated" rfl

/-- C6: when the slot query reports an error, the message
`'Failed to load available time slots'` is displayed (the banner renders),
the cause is logged, and the slot list stays empty. -/
theorem C6_load_failure_shows_error (s : UiState) (resp : SlotQueryResp)
    (msg : String) (hs : s.slots = []) (he : resp.error = some msg) :
    (loadAvailableSlots s resp).1.error
      = "Failed to load available time slots" ∧
    (loadAvailableSlots s resp).2 = true ∧
    (loadAvailableSlots s resp).1.slots = [] ∧
    errorBannerShown ((loadAvailableSlots s resp).1.error) = true := by
  simp [loadAvailableSlots, he, hs, errorBannerShown]

theorem C6_load_failure_witness :
    (loadAvailableSlots initialUiState ⟨none, some "network down"⟩).1.error
      = "Failed to load available time slots" ∧
    (loadAvailableSlots initialUiState ⟨none, some "network down"⟩).2
      = true ∧
    (loadAvailableSlots initialUiState ⟨none, some "network down"⟩).1.slots
      = [] ∧
    errorBannerShown
      ((loadAvailableSlots initialUiState
          ⟨none, some "network down"⟩).1.error) = true :=
  C6_load_failure_shows_error initialUiState ⟨none, some "network down"⟩
    "network down" rfl rfl

/-- C7: the slot query returns exactly the rows with the given `mentor_id`,
`is_booked = false` and `start_time` at or after the load time, ordered
ascending by `start_time`; on success `loadAvailableSlots` populates the
slot list with the returned data. -/
theorem C7_slot_query_contract (db : List DbSlot) (mentorId now : String) :
    (∀ sl : DbSlot,
        sl ∈ runSlotQuery db mentorId now ↔
          sl ∈ db ∧ slotMatches mentorId now sl = true) ∧
    (runSlotQuery db mentorId now).Pairwise
      (fun a b => strLe a.start_time b.start_time = true) ∧
    (∀ (s : UiState) (d : List TimeSlot),
        ((loadAvailableSlots s { data := some d, error := none }).1).slots
          = d) := by
  refine ⟨?_, ?_, ?_⟩
  · intro sl
    simp [runSlotQuery, List.mem_filter]
  · have h := List.sorted_mergeSort
      (fun a b c : DbSlot =>
        strLe_trans a.start_time b.start_time c.start_time)
      (fun a b : DbSlot => strLe_total a.start_time b.start_time)
      (db.filter (slotMatches mentorId now))
    exact h
  · intro s d
    rfl

/-- C8: when the query returns zero eligible slots, the loader yields the
empty slot list and, loading having completed, the render shows the
`'No available time slots'` empty state. -/
theorem C8_zero_slots_empty_state (db : List DbSlot) (mentorId now : String)
    (s : UiState) (hq : runSlotQuery db mentorId now = []) :
    ((loadAvailableSlots s (slotLoadResp db mentorId now)).1).slots = [] ∧
    ((loadAvailableSlots s (slotLoadResp db mentorId now)).1).loading
      = false ∧
    renderBody
      ((loadAvailableSlots s (slotLoadResp db mentorId now)).1).loading
      ((loadAvailableSlots s (slotLoadResp db mentorId now)).1).slots
      = BodyView.emptyView := by
  simp [loadAvailableSlots, slotLoadResp, hq, renderBody]

theorem C8_zero_slots_witness :
    ((loadAvailableSlots initialUiState
        (slotLoadResp c8Db "m1" c8Now)).1).slots = [] ∧
    ((loadAvailableSlots initialUiState
        (slotLoadResp c8Db "m1" c8Now)).1).loading = false ∧
    renderBody
      ((loadAvailableSlots initialUiState
          (slotLoadResp c8Db "m1" c8Now)).1).loading
      ((loadAvailableSlots initialUiState
          (slotLoadResp c8Db "m1" c8Now)).1).slots
      = BodyView.emptyView :=
  C8_zero_slots_empty_state c8Db "m1" c8Now initialUiState
    (by simp [runSlotQuery,
          show c8Db.filter (slotMatches "m1" c8Now) = [] from by decide])

/-- C9: the `finally` of `bookSlot` runs on every path (success, any thrown
error, tolerated email failure), so every run ends with
`bookingInProgress = false` and `bookingSlotId = null`. -/
theorem C9_finally_clears_booking_state (s : UiState) (w : BookWorld)
    (slotId : String) :
    (bookSlot s w slotId).1.bookingInProgress = false ∧
    (bookSlot s w slotId).1.bookingSlotId = none :=
  ⟨rfl, rfl⟩

/-- C10: every accepted click runs the synchronous prologue of `bookSlot`,
which sets the visible error state to the empty string, and submits no
remote call: the state right after the click has `error = ''` and the set
of in-flight booking RPCs unchanged. -/
theorem C10_click_clears_error (m m' : MState) (slot : String)
    (h : mstep m (.click slot) = some m') :
    m'.error = "" ∧ m'.rpcInFlight = m.rpcInFlight := by
  simp only [mstep] at h
  split at h
  · injection h with h
    subst h
    exact ⟨rfl, rfl⟩
  · exact Option.noConfusion h

theorem C10_click_witness :
    c10ClickState.error = "" ∧
    c10ClickState.rpcInFlight = (initMState ["s1"]).rpcInFlight :=
  C10_click_clears_error (initMState ["s1"]) c10ClickState "s1" (by decide)
